import Mathlib

/-!
Verification of the SYCL GPU dispatch and memory-storage core of the
oneDNN (mkldnn) SYCL backend: `sycl_ocl_gpu_kernel.cpp` (scalar-argument
binding, kernel dispatch, kernel-object release), the buffer memory
storage header (`sycl_buffer_memory_storage_t`), and the gemm C++ API
glue (`cxxapi/gemm.cpp`).

The C++ is shallowly embedded: compile-time memory-API selection
(`MKLDNN_SYCL_MEMORY_API`) becomes an explicit configuration parameter,
the SYCL command-group handler becomes an accumulated list of commands,
`assert` failures and thrown exceptions become `Except.error` outcomes
(both are non-recoverable escapes from `parallel_for`: they never surface
through its `status_t` return channel), and native handles (OpenCL
kernels, SYCL buffers, USM pointers) become natural-number identifiers.
-/

namespace OneDnnSycl

/-- Build-time memory API selection (`MKLDNN_SYCL_MEMORY_API`): buffer,
unified shared memory, or the legacy virtual-pointer mode. -/
inductive memory_api_kind_t where
  | buffer
  | usm
  | vptr
deriving DecidableEq, Repr

/-- Status codes of the library (`status_t`).  `parallel_for` only ever
produces `success`; the other constructors exist in the library's status
enum and are used by other layers. -/
inductive status_t where
  | success
  | invalid_arguments
  | runtime_error
deriving DecidableEq, Repr

/-- Non-recoverable escapes from the dispatch path: a failed `assert`
(fatal in a checked build) or a thrown C++ exception.  Neither is
reported through the `status_t` return value. -/
inductive failure_t where
  | assert_fail (msg : String)
  | thrown (msg : String)
deriving DecidableEq, Repr

/-- A SYCL `buffer<uint8_t, 1>` object (`buffer_u8_t`).  A SYCL buffer is
a shared reference to a backing allocation; copying the buffer object
duplicates the reference, not the data.  `alloc` identifies the backing
allocation shared by all copies. -/
structure buffer_u8_t where
  alloc : Nat
deriving DecidableEq, Repr

/-- The SYCL buffer copy constructor (`new buffer_u8_t(*buf_u8_ptr)`):
the new object is an independent ownership entry referring to the same
backing allocation. -/
def buffer_u8_t.copy (b : buffer_u8_t) : buffer_u8_t :=
  { alloc := b.alloc }

/-- A device-memory store: the byte contents of each backing allocation,
indexed by allocation identifier.  Used to state that two buffer handles
alias the same underlying data. -/
def device_store_t : Type := Nat → List Nat

/-- Reading the bytes visible through a buffer handle: the contents of
its backing allocation. -/
def read_through (st : device_store_t) (b : buffer_u8_t) : List Nat :=
  st b.alloc

/-- `sycl_buffer_memory_storage_t` (buffer-backed memory storage).
`buffer_` models the `std::shared_ptr<buffer_u8_t>` member (null when no
handle has been set); `offset_` models the base-class `memory_storage_t`
offset member written by `set_offset` (the base class is not part of this
fragment; the field is kept because `cxxapi/gemm.cpp` stores
`offset * sizeof(T)` there after constructing the memory object). -/
structure sycl_buffer_memory_storage_t where
  buffer_ : Option buffer_u8_t
  offset_ : Nat
deriving DecidableEq, Repr

/-- `buffer()` accessor: `return *buffer_;` — dereferences the owned
shared pointer.  The dispatch path only calls it after checking that the
storage is non-null, so the default value is never observed there. -/
def sycl_buffer_memory_storage_t.buffer (s : sycl_buffer_memory_storage_t) : buffer_u8_t :=
  s.buffer_.getD { alloc := 0 }

/-- `get_data_handle`: `*handle = static_cast<void *>(buffer_.get());
return status::success;` — yields (a pointer to) the owned buffer object,
null when none is owned. -/
def sycl_buffer_memory_storage_t.get_data_handle (s : sycl_buffer_memory_storage_t) :
    Option buffer_u8_t × status_t :=
  (s.buffer_, status_t.success)

/-- `set_data_handle`: `buffer_.reset(new buffer_u8_t(*buf_u8_ptr));
return status::success;` — the storage takes ownership of a freshly
copy-constructed buffer object (a duplicate reference to the caller's
backing allocation). -/
def sycl_buffer_memory_storage_t.set_data_handle (s : sycl_buffer_memory_storage_t)
    (handle : buffer_u8_t) : sycl_buffer_memory_storage_t × status_t :=
  ({ s with buffer_ := some handle.copy }, status_t.success)

/-- `base_offset()` override of the buffer-backed storage
(sycl_buffer_memory_storage.hpp line 58): `return 0;` unconditionally. -/
def sycl_buffer_memory_storage_t.base_offset (_s : sycl_buffer_memory_storage_t) : Nat :=
  0

/-- Base-class `memory_storage_t::set_offset`, as used by
`create_memory_t<memory_api_kind_t::buffer>::call` in `cxxapi/gemm.cpp`
(`mem->memory_storage()->set_offset(offset * sizeof(T))`).  Modelled from
the spec: the base class is outside this fragment; it records the byte
offset in the storage object. -/
def sycl_buffer_memory_storage_t.set_offset (s : sycl_buffer_memory_storage_t)
    (offset : Nat) : sycl_buffer_memory_storage_t :=
  { s with offset_ := offset }

/-- `create_memory_t<memory_api_kind_t::buffer>::call` from
`cxxapi/gemm.cpp` restricted to its storage effect: reinterpret the
caller's buffer as a byte buffer (same backing allocation), create a
storage, set its data handle to that byte buffer, then record
`offset * sizeof(T)` via `set_offset`. -/
def create_memory_buffer_call (handle : buffer_u8_t) (offset : Nat) (sizeof_T : Nat) :
    sycl_buffer_memory_storage_t :=
  let mem : sycl_buffer_memory_storage_t := { buffer_ := none, offset_ := 0 }
  let mem := (mem.set_data_handle handle).fst
  mem.set_offset (offset * sizeof_T)

/-- Pointer-backed (USM) memory storage.  Modelled from the spec: the
USM storage class is not part of this fragment; the spec states that its
handle is the raw pointer itself, `set_data_handle` stores the supplied
pointer, `get_data_handle` returns it, and `base_offset()` is always zero
since the handle already points at the logical start. -/
structure sycl_usm_memory_storage_t where
  usm_ptr_ : Option Nat
deriving DecidableEq, Repr

/-- Modelled from the spec: USM `set_data_handle` rebinds the storage to
the supplied raw pointer. -/
def sycl_usm_memory_storage_t.set_data_handle (s : sycl_usm_memory_storage_t)
    (handle : Option Nat) : sycl_usm_memory_storage_t × status_t :=
  ({ s with usm_ptr_ := handle }, status_t.success)

/-- Modelled from the spec: USM `get_data_handle` returns the stored raw
pointer. -/
def sycl_usm_memory_storage_t.get_data_handle (s : sycl_usm_memory_storage_t) :
    Option Nat × status_t :=
  (s.usm_ptr_, status_t.success)

/-- Modelled from the spec: USM `base_offset()` is always zero. -/
def sycl_usm_memory_storage_t.base_offset (_s : sycl_usm_memory_storage_t) : Nat :=
  0

/-- `compute::nd_range_t`.  Modelled from the spec (the header is outside
this fragment): a required global extent plus an optional local
(work-group) extent; the zero range (no work) is the sentinel whose
global extent has product zero. -/
structure nd_range_t where
  global_range_ : List Nat
  local_range_ : Option (List Nat)
deriving DecidableEq, Repr

/-- Modelled from the spec: the zero sentinel — a global extent covering
no work items. -/
def nd_range_t.is_zero (r : nd_range_t) : Bool :=
  r.global_range_.foldl (· * ·) 1 == 0

/-- One entry of `kernel_arg_list_t`: either a "global" (memory)
argument carrying a possibly-null memory storage, or a scalar argument
carrying its declared byte width and raw bytes (little-endian, as read
back by the `set_scalar_arg` casts on a little-endian target). -/
inductive kernel_arg_t where
  | global (storage : Option sycl_buffer_memory_storage_t)
  | scalar (size : Nat) (bytes : List Nat)
deriving DecidableEq, Repr

/-- Access modes of SYCL accessors; the dispatch path only ever requests
`read_write`. -/
inductive access_mode_t where
  | read_write
  | read
  | write
deriving DecidableEq, Repr

/-- One operation recorded on the SYCL command-group handler (`cgh`)
inside a submission: an argument binding at a positional slot, or the
final compute dispatch (grouped nd-range or flat range). -/
inductive command_t where
  | set_arg_acc (index : Nat) (mode : access_mode_t) (alloc : Nat)
  | set_arg_null (index : Nat)
  | set_arg_scalar (index : Nat) (width : Nat) (value : Nat)
  | dispatch_nd (global_ext : List Nat) (local_ext : List Nat)
  | dispatch_flat (global_ext : List Nat)
deriving DecidableEq, Repr

/-- The positional slot an argument-binding command targets; `none` for
the compute dispatch commands. -/
def command_t.slot : command_t → Option Nat
  | .set_arg_acc i _ _ => some i
  | .set_arg_null i => some i
  | .set_arg_scalar i _ _ => some i
  | .dispatch_nd _ _ => none
  | .dispatch_flat _ => none

/-- Little-endian reinterpretation of a byte list as an unsigned
integer, as performed by `*static_cast<uintN_t *>(value)`. -/
def bytes_to_uint : List Nat → Nat
  | [] => 0
  | b :: rest => b % 256 + 256 * bytes_to_uint rest

/-- `set_scalar_arg` (sycl_ocl_gpu_kernel.cpp lines 28–47): switch on the
declared byte width; widths 1, 2, 4, 8 bind the value reinterpreted as
the unsigned integer of that width; any other width hits
`assert(!"Please add another case")` followed by
`throw std::runtime_error("Internal error")` — a non-recoverable escape,
modelled as the assert firing. -/
def set_scalar_arg (index : Nat) (size : Nat) (bytes : List Nat) :
    Except failure_t command_t :=
  if size = 1 then
    Except.ok (command_t.set_arg_scalar index 1 (bytes_to_uint (bytes.take 1)))
  else if size = 2 then
    Except.ok (command_t.set_arg_scalar index 2 (bytes_to_uint (bytes.take 2)))
  else if size = 4 then
    Except.ok (command_t.set_arg_scalar index 4 (bytes_to_uint (bytes.take 4)))
  else if size = 8 then
    Except.ok (command_t.set_arg_scalar index 8 (bytes_to_uint (bytes.take 8)))
  else
    Except.error (failure_t.assert_fail "Please add another case")

/-- The per-argument binding step of the submission lambda in
`parallel_for`: a global argument with non-null storage binds a
read-write accessor to the storage's buffer (buffer build) or to the
buffer recovered from the storage's virtual pointer (vptr build, which
refers to the same backing allocation); a global argument with null
storage binds an explicit null; a scalar argument goes through
`set_scalar_arg`.  The USM build never reaches this code (the dispatch
asserts first); its inner branch is `assert(false)`. -/
def bind_arg (cfg : memory_api_kind_t) (i : Nat) :
    kernel_arg_t → Except failure_t command_t
  | .global none => Except.ok (command_t.set_arg_null i)
  | .global (some stg) =>
    match cfg with
    | .buffer =>
      Except.ok (command_t.set_arg_acc i access_mode_t.read_write stg.buffer.alloc)
    | .usm => Except.error (failure_t.assert_fail "false")
    | .vptr =>
      Except.ok (command_t.set_arg_acc i access_mode_t.read_write stg.buffer.alloc)
  | .scalar size bytes => set_scalar_arg i size bytes

/-- The argument-binding loop `for (int i = 0; i < arg_list.nargs(); ++i)`
starting at slot `i`, producing the bindings in index order. -/
def bind_args (cfg : memory_api_kind_t) (i : Nat) :
    List kernel_arg_t → Except failure_t (List command_t)
  | [] => Except.ok []
  | a :: rest =>
    match bind_arg cfg i a with
    | Except.error e => Except.error e
    | Except.ok c =>
      match bind_args cfg (i + 1) rest with
      | Except.error e => Except.error e
      | Except.ok cs => Except.ok (c :: cs)

/-- The compute dispatch recorded after all bindings: if the range
carries a local (work-group) extent, a grouped (global, local) nd-range
execution, otherwise a flat global-only execution. -/
def dispatch_cmd (range : nd_range_t) : command_t :=
  match range.local_range_ with
  | some l => command_t.dispatch_nd range.global_range_ l
  | none => command_t.dispatch_flat range.global_range_

/-- The compiled-kernel wrapper `sycl_ocl_gpu_kernel_t`: owns a native
OpenCL kernel handle (null when empty). -/
structure sycl_ocl_gpu_kernel_t where
  ocl_kernel_ : Option Nat
deriving DecidableEq, Repr

/-- Actions the destructor may perform on native resources. -/
inductive release_action_t where
  | release_kernel (handle : Nat)
deriving DecidableEq, Repr

/-- The destructor `~sycl_ocl_gpu_kernel_t`:
`if (ocl_kernel_) OCL_CHECK_V(clReleaseKernel(ocl_kernel_));` — the
release is guarded by a null check on the stored handle. -/
def sycl_ocl_gpu_kernel_t.destructor (k : sycl_ocl_gpu_kernel_t) : List release_action_t :=
  match k.ocl_kernel_ with
  | some h => [release_action_t.release_kernel h]
  | none => []

/-- `sycl_ocl_gpu_kernel_t::parallel_for` (sycl_ocl_gpu_kernel.cpp lines
54–111).  Under the USM build the function opens with
`assert(!"not implemented")`.  A zero range returns `status::success`
with no submission.  Otherwise one submission is enqueued whose commands
are the argument bindings in index order followed by the compute
dispatch, and the function returns `status::success`.  The result pairs
the returned status with the list of submissions pushed onto the
stream's queue. -/
def parallel_for (cfg : memory_api_kind_t) (_kernel : sycl_ocl_gpu_kernel_t)
    (range : nd_range_t) (arg_list : List kernel_arg_t) :
    Except failure_t (status_t × List (List command_t)) :=
  if cfg = memory_api_kind_t.usm then
    Except.error (failure_t.assert_fail "not implemented")
  else if range.is_zero then
    Except.ok (status_t.success, [])
  else
    match bind_args cfg 0 arg_list with
    | Except.error e => Except.error e
    | Except.ok bindings =>
      Except.ok (status_t.success, [bindings ++ [dispatch_cmd range]])

/-! ### Helper lemmas shared by the claim theorems -/

/-- A successful `bind_arg` at slot `i` produces a command targeting
slot `i`. -/
theorem bind_arg_slot (cfg : memory_api_kind_t) (i : Nat) (a : kernel_arg_t)
    (c : command_t) (h : bind_arg cfg i a = Except.ok c) : c.slot = some i := by
  cases a with
  | global storage =>
    cases storage with
    | none =>
      simp only [bind_arg] at h
      cases h
      rfl
    | some stg =>
      cases cfg <;> simp only [bind_arg] at h <;> cases h <;> rfl
  | scalar size bytes =>
    simp only [bind_arg, set_scalar_arg] at h
    split_ifs at h <;> cases h <;> rfl

/-- A successful `bind_args` yields one command per argument. -/
theorem bind_args_length (cfg : memory_api_kind_t) :
    ∀ (args : List kernel_arg_t) (s : Nat) (cs : List command_t),
      bind_args cfg s args = Except.ok cs → cs.length = args.length := by
  intro args
  induction args with
  | nil =>
    intro s cs h
    simp only [bind_args] at h
    cases h
    rfl
  | cons a rest ih =>
    intro s cs h
    simp only [bind_args] at h
    cases hba : bind_arg cfg s a with
    | error e => rw [hba] at h; simp at h
    | ok c =>
      rw [hba] at h
      cases hrest : bind_args cfg (s + 1) rest with
      | error e => rw [hrest] at h; simp at h
      | ok cs2 =>
        rw [hrest] at h
        simp only [Except.ok.injEq] at h
        subst h
        simp [ih (s + 1) cs2 hrest]

/-- Element `i` of a successful `bind_args` starting at slot `s` is
exactly the command bound for argument `i` at slot `s + i`. -/
theorem bind_args_getD (cfg : memory_api_kind_t) :
    ∀ (args : List kernel_arg_t) (s : Nat) (cs : List command_t),
      bind_args cfg s args = Except.ok cs →
      ∀ i, i < args.length →
        bind_arg cfg (s + i) (args.getD i (kernel_arg_t.global none)) =
          Except.ok (cs.getD i (command_t.dispatch_flat [])) := by
  intro args
  induction args with
  | nil =>
    intro s cs _ i hi
    exact absurd hi (by simp)
  | cons a rest ih =>
    intro s cs h i hi
    simp only [bind_args] at h
    cases hba : bind_arg cfg s a with
    | error e => rw [hba] at h; simp at h
    | ok c =>
      rw [hba] at h
      cases hrest : bind_args cfg (s + 1) rest with
      | error e => rw [hrest] at h; simp at h
      | ok cs2 =>
        rw [hrest] at h
        simp only [Except.ok.injEq] at h
        subst h
        cases i with
        | zero => simpa using hba
        | succ j =>
          have hj : j < rest.length := by
            simpa [Nat.succ_lt_succ_iff] using hi
          have := ih (s + 1) cs2 hrest j hj
          simpa [Nat.add_assoc, Nat.add_comm 1 j] using this

/-- Decomposition of a successful non-zero-range `parallel_for` under a
non-USM build: the status is success and the single submission is the
argument bindings followed by the dispatch command. -/
theorem parallel_for_ok_decomp (cfg : memory_api_kind_t)
    (k : sycl_ocl_gpu_kernel_t) (range : nd_range_t)
    (args : List kernel_arg_t) (st : status_t) (subs : List (List command_t))
    (h : parallel_for cfg k range args = Except.ok (st, subs))
    (hz : range.is_zero = false) :
    st = status_t.success ∧
    ∃ bindings, bind_args cfg 0 args = Except.ok bindings ∧
      subs = [bindings ++ [dispatch_cmd range]] := by
  unfold parallel_for at h
  by_cases hc : cfg = memory_api_kind_t.usm
  · rw [if_pos hc] at h
    cases h
  · rw [if_neg hc, if_neg (by simp [hz])] at h
    cases hb : bind_args cfg 0 args with
    | error e => rw [hb] at h; simp at h
    | ok bindings =>
      rw [hb] at h
      simp only [Except.ok.injEq, Prod.mk.injEq] at h
      exact ⟨h.1.symm, bindings, rfl, h.2.symm⟩

/-! ### Claim theorems -/

/-- Claim C1: for every argument list passed to `parallel_for`, each
argument flagged as global whose memory storage is non-null is bound at
its positional slot as a read-write access descriptor resolved from that
storage's native buffer handle, and each global argument whose storage
is null is bound at its slot as an explicit null reference. -/
theorem parallel_for_global_arg_binding (cfg : memory_api_kind_t)
    (k : sycl_ocl_gpu_kernel_t) (range : nd_range_t)
    (args : List kernel_arg_t) (st : status_t) (sub : List command_t) (i : Nat)
    (h : parallel_for cfg k range args = Except.ok (st, [sub]))
    (hz : range.is_zero = false) (hi : i < args.length) :
    (args.getD i (kernel_arg_t.global none) = kernel_arg_t.global none →
      sub.getD i (command_t.dispatch_flat []) = command_t.set_arg_null i) ∧
    (∀ stg, args.getD i (kernel_arg_t.global none) = kernel_arg_t.global (some stg) →
      sub.getD i (command_t.dispatch_flat []) =
        command_t.set_arg_acc i access_mode_t.read_write stg.buffer.alloc) := by
  obtain ⟨-, bindings, hb, hsub⟩ :=
    parallel_for_ok_decomp cfg k range args st [sub] h hz
  have hsub2 : sub = bindings ++ [dispatch_cmd range] := by
    simpa using hsub
  have hlen : bindings.length = args.length := bind_args_length cfg args 0 bindings hb
  have hget := bind_args_getD cfg args 0 bindings hb i hi
  have hleft : sub.getD i (command_t.dispatch_flat []) =
      bindings.getD i (command_t.dispatch_flat []) := by
    rw [hsub2]
    exact List.getD_append bindings [dispatch_cmd range] _ i (hlen ▸ hi)
  constructor
  · intro hnull
    rw [hnull] at hget
    simp only [bind_arg, Nat.zero_add, Except.ok.injEq] at hget
    rw [hleft, ← hget]
  · intro stg hsome
    rw [hsome] at hget
    cases cfg with
    | usm =>
      exfalso
      unfold parallel_for at h
      simp at h
    | buffer =>
      simp only [bind_arg, Nat.zero_add, Except.ok.injEq] at hget
      rw [hleft, ← hget]
    | vptr =>
      simp only [bind_arg, Nat.zero_add, Except.ok.injEq] at hget
      rw [hleft, ← hget]

/-- Claim C1 witness: a concrete dispatch under the buffer build with a
non-null global argument (backing allocation 7) at slot 0 and a null
global argument at slot 1. -/
theorem parallel_for_global_arg_binding_witness :
    List.getD [command_t.set_arg_acc 0 access_mode_t.read_write 7,
        command_t.set_arg_null 1, command_t.dispatch_flat [4]] 0
        (command_t.dispatch_flat [])
      = command_t.set_arg_acc 0 access_mode_t.read_write 7 ∧
    List.getD [command_t.set_arg_acc 0 access_mode_t.read_write 7,
        command_t.set_arg_null 1, command_t.dispatch_flat [4]] 1
        (command_t.dispatch_flat [])
      = command_t.set_arg_null 1 :=
  ⟨(parallel_for_global_arg_binding memory_api_kind_t.buffer ⟨some 1⟩
      ⟨[4], none⟩
      [kernel_arg_t.global (some ⟨some ⟨7⟩, 0⟩), kernel_arg_t.global none]
      status_t.success
      [command_t.set_arg_acc 0 access_mode_t.read_write 7,
        command_t.set_arg_null 1, command_t.dispatch_flat [4]] 0
      rfl rfl (by decide)).2 ⟨some ⟨7⟩, 0⟩ rfl,
   (parallel_for_global_arg_binding memory_api_kind_t.buffer ⟨some 1⟩
      ⟨[4], none⟩
      [kernel_arg_t.global (some ⟨some ⟨7⟩, 0⟩), kernel_arg_t.global none]
      status_t.success
      [command_t.set_arg_acc 0 access_mode_t.read_write 7,
        command_t.set_arg_null 1, command_t.dispatch_flat [4]] 1
      rfl rfl (by decide)).1 rfl⟩

/-- Claim C2: a scalar argument whose declared byte width is exactly 1,
2, 4 or 8 is bound as the raw bytes reinterpreted as the unsigned
integer of that width; any other width fails through the fatal
(non-recoverable) assert path and is never silently truncated or
coerced. -/
theorem set_scalar_arg_width_contract (i size : Nat) (bytes : List Nat) :
    (size = 1 ∨ size = 2 ∨ size = 4 ∨ size = 8 →
      set_scalar_arg i size bytes =
        Except.ok (command_t.set_arg_scalar i size (bytes_to_uint (bytes.take size)))) ∧
    (¬(size = 1 ∨ size = 2 ∨ size = 4 ∨ size = 8) →
      set_scalar_arg i size bytes =
        Except.error (failure_t.assert_fail "Please add another case")) := by
  constructor
  · rintro (rfl | rfl | rfl | rfl) <;> rfl
  · intro hne
    push_neg at hne
    obtain ⟨h1, h2, h4, h8⟩ := hne
    simp only [set_scalar_arg, if_neg h1, if_neg h2, if_neg h4, if_neg h8]

/-- Claim C2 witness: width 4 binds the little-endian value 7; width 3
hits the fatal path. -/
theorem set_scalar_arg_width_contract_witness :
    set_scalar_arg 0 4 [7, 0, 0, 0] =
      Except.ok (command_t.set_arg_scalar 0 4 7) ∧
    set_scalar_arg 1 3 [1, 2, 3] =
      Except.error (failure_t.assert_fail "Please add another case") := by
  constructor
  · rw [(set_scalar_arg_width_contract 0 4 [7, 0, 0, 0]).1
      (Or.inr (Or.inr (Or.inl rfl)))]
    rfl
  · exact (set_scalar_arg_width_contract 1 3 [1, 2, 3]).2 (by decide)

/-- Claim C3 counterexample: the buffer-backed storage produced by the
gemm glue for a float sub-view at element offset 16 carries byte offset
`16 * 4 = 64`, yet its `base_offset()` override returns 0, not 64. -/
theorem base_offset_buffer_counterexample :
    (create_memory_buffer_call ⟨1⟩ 16 4).offset_ = 64 ∧
    (create_memory_buffer_call ⟨1⟩ 16 4).base_offset = 0 ∧ (0 : Nat) ≠ 64 := by
  decide

/-- Claim C3 amended: `base_offset()` returns 0 for every pointer-backed
storage and also for every buffer-backed storage — the buffer override
(line 58 of the storage header) ignores any offset recorded on the
storage, including a non-zero offset supplied at construction through
the gemm glue's `set_offset`. -/
theorem base_offset_always_zero :
    (∀ s : sycl_buffer_memory_storage_t, s.base_offset = 0) ∧
    (∀ s : sycl_usm_memory_storage_t, s.base_offset = 0) :=
  ⟨fun _ => rfl, fun _ => rfl⟩

/-- Claim C4 counterexample: under the USM build, a call with the zero
range does not return success and is not a no-op status return — the
`assert(!"not implemented")` at the top of `parallel_for` fires before
the zero-range check. -/
theorem parallel_for_zero_range_usm_counterexample :
    nd_range_t.is_zero ⟨[0], none⟩ = true ∧
    parallel_for memory_api_kind_t.usm ⟨some 1⟩ ⟨[0], none⟩ [] =
      Except.error (failure_t.assert_fail "not implemented") :=
  ⟨rfl, rfl⟩

/-- Claim C4 amended: under every memory-API configuration other than
the USM build (whose leading assertion fires first), a call to
`parallel_for` with a zero-sentinel range returns success immediately
and performs no submission: no kernel object is constructed, no
arguments are bound, and nothing is enqueued on the stream's queue. -/
theorem parallel_for_zero_range_noop (cfg : memory_api_kind_t)
    (k : sycl_ocl_gpu_kernel_t) (range : nd_range_t)
    (args : List kernel_arg_t) (hc : cfg ≠ memory_api_kind_t.usm)
    (hzz : range.is_zero = true) :
    parallel_for cfg k range args = Except.ok (status_t.success, []) := by
  unfold parallel_for
  rw [if_neg hc, if_pos hzz]

/-- Claim C4 witness: a concrete zero-range call under the buffer build
(with a pending scalar argument that is never bound) returns success
with an empty submission list. -/
theorem parallel_for_zero_range_noop_witness :
    memory_api_kind_t.buffer ≠ memory_api_kind_t.usm ∧
    nd_range_t.is_zero ⟨[0, 5], some [1]⟩ = true ∧
    parallel_for memory_api_kind_t.buffer ⟨some 2⟩ ⟨[0, 5], some [1]⟩
      [kernel_arg_t.scalar 4 [7, 0, 0, 0]] =
      Except.ok (status_t.success, []) :=
  ⟨by decide, rfl,
   parallel_for_zero_range_noop memory_api_kind_t.buffer ⟨some 2⟩
     ⟨[0, 5], some [1]⟩ [kernel_arg_t.scalar 4 [7, 0, 0, 0]]
     (by decide) rfl⟩

/-- Claim C5: under the memory-API configuration the kernel does not
support (the USM build, whose dispatch body is
`assert(!"not implemented")`), `parallel_for` fails via the
assertion/fatal path at dispatch time for every range and argument list
— it never produces a recoverable status return. -/
theorem parallel_for_usm_asserts (k : sycl_ocl_gpu_kernel_t)
    (range : nd_range_t) (args : List kernel_arg_t) :
    parallel_for memory_api_kind_t.usm k range args =
      Except.error (failure_t.assert_fail "not implemented") :=
  rfl

/-- Claim C6: for every non-zero range, the submission shape follows
the local (work-group) extent of the range: with a local extent present
the work is submitted as a grouped (global, local) nd-range execution,
otherwise as a flat global-only execution — in both cases as the final
command of the single submission, after the argument bindings. -/
theorem parallel_for_dispatch_shape (cfg : memory_api_kind_t)
    (k : sycl_ocl_gpu_kernel_t) (range : nd_range_t)
    (args : List kernel_arg_t) (st : status_t) (subs : List (List command_t))
    (bindings : List command_t)
    (h : parallel_for cfg k range args = Except.ok (st, subs))
    (hz : range.is_zero = false)
    (hb : bind_args cfg 0 args = Except.ok bindings) :
    (range.local_range_ = none →
      subs = [bindings ++ [command_t.dispatch_flat range.global_range_]]) ∧
    ∀ l, range.local_range_ = some l →
      subs = [bindings ++ [command_t.dispatch_nd range.global_range_ l]] := by
  obtain ⟨-, bindings2, hb2, hsub⟩ :=
    parallel_for_ok_decomp cfg k range args st subs h hz
  rw [hb] at hb2
  injection hb2 with hbnd
  subst hbnd
  constructor
  · intro hl
    rw [hsub]
    simp [dispatch_cmd, hl]
  · intro l hl
    rw [hsub]
    simp [dispatch_cmd, hl]

/-- Claim C6 witness: a concrete grouped dispatch (global [8], local
[2]) and a concrete flat dispatch (global [8]) under the buffer
build. -/
theorem parallel_for_dispatch_shape_witness :
    ([[command_t.dispatch_nd [8] [2]]] : List (List command_t)) =
      [([] : List command_t) ++ [command_t.dispatch_nd [8] [2]]] ∧
    ([[command_t.dispatch_flat [8]]] : List (List command_t)) =
      [([] : List command_t) ++ [command_t.dispatch_flat [8]]] :=
  ⟨(parallel_for_dispatch_shape memory_api_kind_t.buffer ⟨some 1⟩
      ⟨[8], some [2]⟩ [] status_t.success [[command_t.dispatch_nd [8] [2]]]
      [] rfl rfl rfl).2 [2] rfl,
   (parallel_for_dispatch_shape memory_api_kind_t.buffer ⟨some 1⟩
      ⟨[8], none⟩ [] status_t.success [[command_t.dispatch_flat [8]]]
      [] rfl rfl rfl).1 rfl⟩

/-- Claim C7: for every non-zero range and argument list of length N,
the single submission applies the argument bindings in strictly
increasing index order — the command at position i targets slot i for
each i < N — and all N bindings precede the compute dispatch, which is
the final (N+1st) command of the submission. -/
theorem parallel_for_binds_in_index_order (cfg : memory_api_kind_t)
    (k : sycl_ocl_gpu_kernel_t) (range : nd_range_t)
    (args : List kernel_arg_t) (st : status_t) (sub : List command_t)
    (h : parallel_for cfg k range args = Except.ok (st, [sub]))
    (hz : range.is_zero = false) :
    sub.length = args.length + 1 ∧
    (∀ i, i < args.length →
      (sub.getD i (command_t.dispatch_flat [])).slot = some i) ∧
    sub.getD args.length (command_t.set_arg_null 0) = dispatch_cmd range := by
  obtain ⟨-, bindings, hb, hsub⟩ :=
    parallel_for_ok_decomp cfg k range args st [sub] h hz
  have hsub2 : sub = bindings ++ [dispatch_cmd range] := by
    simpa using hsub
  have hlen : bindings.length = args.length :=
    bind_args_length cfg args 0 bindings hb
  refine ⟨?_, ?_, ?_⟩
  · rw [hsub2]
    simp [hlen]
  · intro i hi
    have hget := bind_args_getD cfg args 0 bindings hb i hi
    have hslot := bind_arg_slot cfg (0 + i) _ _ hget
    have hleft : sub.getD i (command_t.dispatch_flat []) =
        bindings.getD i (command_t.dispatch_flat []) := by
      rw [hsub2]
      exact List.getD_append _ _ _ _ (hlen ▸ hi)
    rw [hleft]
    simpa using hslot
  · have hle : bindings.length ≤ args.length := le_of_eq hlen
    rw [hsub2, List.getD_append_right _ _ _ _ hle, hlen]
    simp

/-- Claim C7 witness: a concrete two-argument dispatch whose submission
is [scalar binding at slot 0, null binding at slot 1, flat dispatch]. -/
theorem parallel_for_binds_in_index_order_witness :
    ([command_t.set_arg_scalar 0 4 7, command_t.set_arg_null 1,
        command_t.dispatch_flat [4]] : List command_t).length = 2 + 1 ∧
    (List.getD [command_t.set_arg_scalar 0 4 7, command_t.set_arg_null 1,
        command_t.dispatch_flat [4]] 0 (command_t.dispatch_flat [])).slot
      = some 0 ∧
    (List.getD [command_t.set_arg_scalar 0 4 7, command_t.set_arg_null 1,
        command_t.dispatch_flat [4]] 1 (command_t.dispatch_flat [])).slot
      = some 1 ∧
    List.getD [command_t.set_arg_scalar 0 4 7, command_t.set_arg_null 1,
        command_t.dispatch_flat [4]] 2 (command_t.set_arg_null 0)
      = dispatch_cmd ⟨[4], none⟩ := by
  have h := parallel_for_binds_in_index_order memory_api_kind_t.buffer
    ⟨some 1⟩ ⟨[4], none⟩
    [kernel_arg_t.scalar 4 [7, 0, 0, 0], kernel_arg_t.global none]
    status_t.success
    [command_t.set_arg_scalar 0 4 7, command_t.set_arg_null 1,
      command_t.dispatch_flat [4]] rfl rfl
  exact ⟨h.1, h.2.1 0 (by decide), h.2.1 1 (by decide), h.2.2⟩

/-- Claim C8: the destructor releases the owned native kernel exactly
once when the stored handle is non-null, releases nothing when the
handle is null, and can never release twice: the release is guarded by
the null check on the stored handle, so at most one release action is
ever emitted. -/
theorem destructor_releases_exactly_once (k : sycl_ocl_gpu_kernel_t) :
    (∀ h, k.ocl_kernel_ = some h →
      k.destructor = [release_action_t.release_kernel h]) ∧
    (k.ocl_kernel_ = none → k.destructor = []) ∧
    (∀ h, k.destructor.count (release_action_t.release_kernel h) ≤ 1) := by
  refine ⟨?_, ?_, ?_⟩
  · intro h hh
    simp [sycl_ocl_gpu_kernel_t.destructor, hh]
  · intro hh
    simp [sycl_ocl_gpu_kernel_t.destructor, hh]
  · intro h
    cases hk : k.ocl_kernel_ with
    | none => simp [sycl_ocl_gpu_kernel_t.destructor, hk]
    | some h2 =>
      simp only [sycl_ocl_gpu_kernel_t.destructor, hk]
      exact le_trans (List.count_le_length _ _) (by simp)

/-- Claim C8 witness: a wrapper holding native handle 5 releases it
exactly once; an empty wrapper releases nothing. -/
theorem destructor_releases_exactly_once_witness :
    sycl_ocl_gpu_kernel_t.destructor ⟨some 5⟩ =
      [release_action_t.release_kernel 5] ∧
    sycl_ocl_gpu_kernel_t.destructor ⟨none⟩ = [] :=
  ⟨(destructor_releases_exactly_once ⟨some 5⟩).1 5 rfl,
   (destructor_releases_exactly_once ⟨none⟩).2.1 rfl⟩

/-- Claim C9: `set_data_handle` followed by `get_data_handle` yields a
handle referring to the same underlying data as the one supplied; for
the buffer-backed variant the storage holds a freshly copy-constructed
buffer object (an independent shared-ownership entry aliasing the same
backing allocation — reads through it agree with reads through the
supplied handle in every device store), not an exclusive copy of the
data; the spec-modelled pointer-backed variant returns the supplied
pointer itself. -/
theorem set_get_data_handle_roundtrip (s : sycl_buffer_memory_storage_t)
    (h : buffer_u8_t) (p : sycl_usm_memory_storage_t) (q : Option Nat) :
    ((s.set_data_handle h).snd = status_t.success ∧
      (s.set_data_handle h).fst.get_data_handle =
        (some h.copy, status_t.success) ∧
      h.copy.alloc = h.alloc ∧
      ∀ st : device_store_t, read_through st h.copy = read_through st h) ∧
    (p.set_data_handle q).fst.get_data_handle = (q, status_t.success) :=
  ⟨⟨rfl, rfl, rfl, fun _ => rfl⟩, rfl⟩

/-- Claim C10: on every path on which `parallel_for` returns a status
value at all, that status is success; failures escape only through the
fatal/exception channel, never through the status return. -/
theorem parallel_for_status_always_success (cfg : memory_api_kind_t)
    (k : sycl_ocl_gpu_kernel_t) (range : nd_range_t)
    (args : List kernel_arg_t) (st : status_t) (subs : List (List command_t))
    (h : parallel_for cfg k range args = Except.ok (st, subs)) :
    st = status_t.success := by
  unfold parallel_for at h
  by_cases hc : cfg = memory_api_kind_t.usm
  · rw [if_pos hc] at h
    cases h
  · rw [if_neg hc] at h
    by_cases hzz : range.is_zero = true
    · rw [if_pos hzz] at h
      simp only [Except.ok.injEq, Prod.mk.injEq] at h
      exact h.1.symm
    · rw [if_neg hzz] at h
      cases hb : bind_args cfg 0 args with
      | error e => rw [hb] at h; simp at h
      | ok bindings =>
        rw [hb] at h
        simp only [Except.ok.injEq, Prod.mk.injEq] at h
        exact h.1.symm

/-- Claim C10 witness: a concrete buffer-build dispatch returns status
success. -/
theorem parallel_for_status_always_success_witness :
    parallel_for memory_api_kind_t.buffer ⟨some 1⟩ ⟨[0], none⟩ [] =
      Except.ok (status_t.success, []) ∧
    status_t.success = status_t.success :=
  ⟨rfl, parallel_for_status_always_success memory_api_kind_t.buffer ⟨some 1⟩
    ⟨[0], none⟩ [] status_t.success [] rfl⟩

end OneDnnSycl
